import Mathlib

/-!
Verification of the ghinbox login-session protocol.

Client side: a shallow embedding of src/ghinbox/webapp/login.js. Each async
handler becomes a pure function from the current client state (the module
variable sessionId) and the transport results it awaits, to the new client
state, the list of API calls it issued, and the UI outcome it displayed.

Server side: the session store / state machine / gateway are exercised by the
e2e tests but their implementation is not part of the sources here; they are
modelled from the specification (definitions marked accordingly).
-/

namespace Ghinbox

/-- A JavaScript value as it can appear in a parsed JSON response field. -/
inductive JsValue where
  | null : JsValue
  | bool : Bool → JsValue
  | num : Int → JsValue
  | str : String → JsValue
deriving DecidableEq, Repr

/-- JavaScript truthiness of an optional field: a missing field reads as
undefined, which is falsy; null, false, 0 and the empty string are falsy. -/
def jsTruthy : Option JsValue → Bool
  | none => false
  | some JsValue.null => false
  | some (JsValue.bool b) => b
  | some (JsValue.num n) => n != 0
  | some (JsValue.str s) => s != ""

/-- The parsed JSON body of a server response, with the fields login.js reads.
Absent fields are none. -/
structure RespData where
  status : Option JsValue := none
  detail : Option String := none
  session_id : Option String := none
  username : Option String := none
  twofa_method : Option String := none
  verification_code : Option String := none
  error : Option String := none
  needs_login : Option JsValue := none
  account : Option String := none
deriving DecidableEq, Repr

/-- An HTTP response as fetch delivers it: the ok flag, the numeric status
code, and the parsed JSON body. -/
structure HttpResponse where
  ok : Bool
  statusCode : Nat
  body : RespData
deriving DecidableEq, Repr

/-- JavaScript a-or-default on strings: the left operand unless it is falsy
(empty), mirroring the or-else idiom used for error messages. -/
def strOr (a fallback : String) : String :=
  if a = "" then fallback else a

/-- JavaScript or-else on an optional string field. -/
def optStrOr (a : Option String) (fallback : String) : String :=
  match a with
  | some s => strOr s fallback
  | none => fallback

/-- fetchJson from login.js: await the json body, and throw when the response
is not ok and the body has no truthy status field; the thrown message is
data.detail or a generic one with the status code. -/
def fetchJson (r : HttpResponse) : Except String RespData :=
  if !r.ok && !jsTruthy r.body.status then
    Except.error (optStrOr r.body.detail ("Request failed: " ++ toString r.statusCode))
  else
    Except.ok r.body

/-- The result of one fetch attempt: either an HTTP response or a failure of
the transport or of JSON parsing, which surfaces as a thrown error. -/
inductive FetchOutcome where
  | response : HttpResponse → FetchOutcome
  | networkError : String → FetchOutcome
deriving DecidableEq, Repr

/-- A whole fetchJson call including transport: a network or parse failure
throws, otherwise fetchJson decides. -/
def fetchJsonFull : FetchOutcome → Except String RespData
  | FetchOutcome.response r => fetchJson r
  | FetchOutcome.networkError e => Except.error e

/-- The fallback answer checkNeedsLogin returns when its request fails. -/
def needsLoginFallback : RespData :=
  { needs_login := some (JsValue.bool true), account := some "default" }

/-- checkNeedsLogin from login.js: return the response, or the fallback on any
thrown error. -/
def checkNeedsLogin (t : FetchOutcome) : RespData :=
  match fetchJsonFull t with
  | Except.ok r => r
  | Except.error _ => needsLoginFallback

/-- One API call issued by the client, with the request data it sent. -/
inductive ApiCall where
  | start : String → ApiCall
  | credentials : Option String → String → String → ApiCall
  | twofa : Option String → String → ApiCall
  | mobileWait : Option String → Nat → ApiCall
  | cancel : Option String → ApiCall
  | reload : ApiCall
deriving DecidableEq, Repr

/-- What the handler left on screen when it finished. -/
inductive UiOutcome where
  | success : Option String → UiOutcome
  | twofaForm : Option String → UiOutcome
  | mobileWaitStarted : Option String → UiOutcome
  | errorShown : String → UiOutcome
  | noop : UiOutcome
deriving DecidableEq, Repr

/-- The observable result of one client handler run: the new value of the
module variable sessionId, the API calls issued in order, the UI outcome, and
any console warnings logged. -/
structure ClientResult where
  sessionId : Option String
  calls : List ApiCall
  outcome : UiOutcome
  warnings : List String := []
deriving DecidableEq, Repr

/-- Does the response body carry exactly this status string? Mirrors the
strict string comparisons on response.status in login.js. -/
def statusIs (r : RespData) (s : String) : Bool :=
  r.status == some (JsValue.str s)

/-- showSuccess from login.js: show the success state, fire one reload call to
the auth bootstrap, and on its failure only log a warning and proceed. -/
def showSuccess (username : Option String) (reloadResult : Except String RespData)
    (sid : Option String) : ClientResult :=
  match reloadResult with
  | Except.ok _ =>
      { sessionId := sid, calls := [ApiCall.reload], outcome := UiOutcome.success username }
  | Except.error e =>
      { sessionId := sid, calls := [ApiCall.reload], outcome := UiOutcome.success username,
        warnings := ["Failed to reload auth: " ++ e] }

/-- handleCredentialsSubmit from login.js. Inputs: the current sessionId,
the account, the trimmed username and the password, and the transport results
of the up to three awaited calls (start, credentials, reload). -/
def handleCredentialsSubmit (s0 : Option String) (account username password : String)
    (startResult credsResult reloadResult : Except String RespData) : ClientResult :=
  if username = "" || password = "" then
    { sessionId := s0, calls := [],
      outcome := UiOutcome.errorShown "Please enter both username and password" }
  else
    let startPhase : List ApiCall × Except String (Option String) :=
      match s0 with
      | some sid => ([], Except.ok (some sid))
      | none =>
        match startResult with
        | Except.error e =>
            ([ApiCall.start account], Except.error (strOr e "An error occurred"))
        | Except.ok r =>
            if statusIs r "error" then
              ([ApiCall.start account],
               Except.error (optStrOr r.error "Failed to start login session"))
            else
              ([ApiCall.start account], Except.ok r.session_id)
    match startPhase with
    | (calls0, Except.error msg) =>
        { sessionId := none, calls := calls0, outcome := UiOutcome.errorShown msg }
    | (calls0, Except.ok sid) =>
      let calls1 := calls0 ++ [ApiCall.credentials sid username password]
      match credsResult with
      | Except.error e =>
          { sessionId := none, calls := calls1,
            outcome := UiOutcome.errorShown (strOr e "An error occurred") }
      | Except.ok r =>
        if statusIs r "success" then
          let sres := showSuccess r.username reloadResult sid
          { sessionId := sid, calls := calls1 ++ sres.calls, outcome := sres.outcome,
            warnings := sres.warnings }
        else if statusIs r "waiting_2fa" then
          { sessionId := sid, calls := calls1, outcome := UiOutcome.twofaForm r.twofa_method }
        else if statusIs r "waiting_mobile" then
          { sessionId := sid, calls := calls1,
            outcome := UiOutcome.mobileWaitStarted r.verification_code }
        else if statusIs r "captcha" then
          { sessionId := none, calls := calls1,
            outcome := UiOutcome.errorShown
              (optStrOr r.error "CAPTCHA required. Please use --headed-login flag on server.") }
        else if statusIs r "error" then
          { sessionId := none, calls := calls1,
            outcome := UiOutcome.errorShown (optStrOr r.error "Login failed") }
        else
          { sessionId := none, calls := calls1,
            outcome := UiOutcome.errorShown "Unexpected response from server" }

/-- handleTwofaSubmit from login.js. Inputs: the current sessionId, the
trimmed code, and the transport results of the awaited calls. -/
def handleTwofaSubmit (s0 : Option String) (code : String)
    (twofaResult reloadResult : Except String RespData) : ClientResult :=
  if code = "" then
    { sessionId := s0, calls := [],
      outcome := UiOutcome.errorShown "Please enter your 2FA code" }
  else
    match s0 with
    | none =>
        { sessionId := none, calls := [],
          outcome := UiOutcome.errorShown "Session expired. Please start over." }
    | some sid =>
      match twofaResult with
      | Except.error e =>
          { sessionId := some sid, calls := [ApiCall.twofa (some sid) code],
            outcome := UiOutcome.errorShown (strOr e "An error occurred") }
      | Except.ok r =>
        let calls1 := [ApiCall.twofa (some sid) code]
        if statusIs r "success" then
          let sres := showSuccess r.username reloadResult (some sid)
          { sessionId := some sid, calls := calls1 ++ sres.calls, outcome := sres.outcome,
            warnings := sres.warnings }
        else if statusIs r "waiting_2fa" then
          { sessionId := some sid, calls := calls1,
            outcome := UiOutcome.errorShown (optStrOr r.error "Invalid code, please try again") }
        else if statusIs r "error" then
          { sessionId := some sid, calls := calls1,
            outcome := UiOutcome.errorShown (optStrOr r.error "2FA verification failed") }
        else
          { sessionId := some sid, calls := calls1, outcome := UiOutcome.noop }

/-- handleMobileWait from login.js: show the wait form with the display code,
await the mobile-wait call with the fixed 120 second timeout, and dispatch. -/
def handleMobileWait (s0 : Option String) (verificationCode : Option String)
    (waitResult reloadResult : Except String RespData) : ClientResult :=
  match waitResult with
  | Except.error e =>
      { sessionId := none, calls := [ApiCall.mobileWait s0 120],
        outcome := UiOutcome.errorShown (strOr e "An error occurred while waiting for approval") }
  | Except.ok r =>
    let calls1 := [ApiCall.mobileWait s0 120]
    if statusIs r "success" then
      let sres := showSuccess r.username reloadResult s0
      { sessionId := s0, calls := calls1 ++ sres.calls, outcome := sres.outcome,
        warnings := sres.warnings }
    else if statusIs r "error" then
      { sessionId := none, calls := calls1,
        outcome := UiOutcome.errorShown (optStrOr r.error "Mobile approval failed or timed out") }
    else if statusIs r "waiting_mobile" then
      { sessionId := none, calls := calls1,
        outcome := UiOutcome.errorShown
          (optStrOr r.error "Mobile approval timed out. Please try again.") }
    else
      { sessionId := s0, calls := calls1, outcome := UiOutcome.noop }

/-- cancelLogin from login.js: when a sessionId is held, post the cancel call
ignoring any thrown error, then clear the id; with no id, do nothing. -/
def cancelLogin (s0 : Option String) (cancelResult : Except String RespData) : ClientResult :=
  match s0 with
  | none => { sessionId := none, calls := [], outcome := UiOutcome.noop }
  | some sid =>
      match cancelResult with
      | Except.ok _ =>
          { sessionId := none, calls := [ApiCall.cancel (some sid)], outcome := UiOutcome.noop }
      | Except.error _ =>
          { sessionId := none, calls := [ApiCall.cancel (some sid)], outcome := UiOutcome.noop }

/-- Modelled from the spec: the server-side session protocol (SessionStore,
SessionStateMachine, TransportGateway) is not among the sources here - only
its e2e tests are - so the states come from spec section 3. -/
inductive SessionState where
  | initialized
  | awaitingCredentialsResult
  | awaiting2fa
  | awaitingMobileApproval
  | succeeded
  | failed
  | cancelled
deriving DecidableEq, Repr

/-- Is this state one of the three terminal states? -/
def SessionState.isTerminal : SessionState → Bool
  | SessionState.succeeded => true
  | SessionState.failed => true
  | SessionState.cancelled => true
  | _ => false

/-- Modelled from the spec: one server-held session record, spec section 3. -/
structure Session where
  id : String
  account : String
  state : SessionState
  username : Option String := none
  twofaMethod : Option String := none
  verificationCode : Option String := none
  lastError : Option String := none
deriving DecidableEq, Repr

/-- Modelled from the spec: the SessionStore holds all in-flight sessions. -/
abbrev Store := List Session

/-- The ids of the live sessions in the store. -/
def storeIds (st : Store) : List String :=
  st.map (fun s => s.id)

/-- SessionStore lookup by id. -/
def storeGet (st : Store) (id : String) : Option Session :=
  st.find? (fun s => s.id == id)

/-- SessionStore removal by id (idempotent). -/
def storeDelete (st : Store) (id : String) : Store :=
  st.filter (fun s => s.id != id)

/-- Replace the session with this id by the given record. -/
def storeSet (st : Store) (s : Session) : Store :=
  st.map (fun t => if t.id == s.id then s else t)

/-- A boundary result of the TransportGateway: either the distinct
session-not-found signal (HTTP 404) or a domain outcome. -/
inductive GatewayResult (α : Type) where
  | notFound : GatewayResult α
  | ok : α → GatewayResult α
deriving DecidableEq, Repr

/-- The tagged outcome statuses the gateway exposes, spec section 4.3 and 6. -/
inductive OpStatus where
  | success
  | waiting2fa
  | waitingMobile
  | captcha
  | error
  | initialized
  | cancelled
deriving DecidableEq, Repr

/-- The caller-facing response of a gateway operation, spec section 6. -/
structure OpResponse where
  status : OpStatus
  sessionId : Option String := none
  username : Option String := none
  twofaMethod : Option String := none
  verificationCode : Option String := none
  message : Option String := none
deriving DecidableEq, Repr

/-- Modelled from the spec: the opaque identity-check delegate that
submitCredentials consults, with the five possible resolutions of spec
section 4.2. -/
inductive IdentityOutcome where
  | ok : String → IdentityOutcome
  | needs2fa : String → IdentityOutcome
  | needsMobile : Option String → IdentityOutcome
  | invalid : String → IdentityOutcome
  | manual : String → IdentityOutcome
deriving DecidableEq, Repr

/-- Modelled from the spec: start allocates a session with a fresh id in
state initialized and answers with the id, spec sections 4.1 and 6. The
generated id is a parameter; its freshness is the uniqueness guarantee of
the cryptographically strong generator. -/
def gwStart (st : Store) (account newId : String) : Store × OpResponse :=
  ({ id := newId, account := account, state := SessionState.initialized } :: st,
   { status := OpStatus.initialized, sessionId := some newId })

/-- Modelled from the spec: status is a read-only snapshot, 404 when the id
is absent. -/
def gwStatus (st : Store) (id : String) : GatewayResult Session :=
  match storeGet st id with
  | none => GatewayResult.notFound
  | some s => GatewayResult.ok s

/-- Modelled from the spec: submitCredentials at the gateway, spec section
4.2. Only a session still in initialized accepts credentials; the identity
delegate decides among immediate success, either 2fa branch, plain failure
and manual-intervention failure. -/
def gwCredentials (st : Store) (id username password : String)
    (identity : String → String → IdentityOutcome) : GatewayResult (Store × OpResponse) :=
  match storeGet st id with
  | none => GatewayResult.notFound
  | some s =>
    if s.state != SessionState.initialized then
      GatewayResult.ok (st, { status := OpStatus.error,
                              message := some "credentials already submitted" })
    else
      match identity username password with
      | IdentityOutcome.ok resolved =>
          let s2 := { s with state := SessionState.succeeded, username := some resolved }
          GatewayResult.ok (storeSet st s2,
            { status := OpStatus.success, username := some resolved })
      | IdentityOutcome.needs2fa method =>
          let s2 := { s with state := SessionState.awaiting2fa,
                             username := some username, twofaMethod := some method }
          GatewayResult.ok (storeSet st s2,
            { status := OpStatus.waiting2fa, twofaMethod := some method })
      | IdentityOutcome.needsMobile vcode =>
          let s2 := { s with state := SessionState.awaitingMobileApproval,
                             username := some username, verificationCode := vcode }
          GatewayResult.ok (storeSet st s2,
            { status := OpStatus.waitingMobile, verificationCode := vcode })
      | IdentityOutcome.invalid msg =>
          let s2 := { s with state := SessionState.failed, lastError := some msg }
          GatewayResult.ok (storeSet st s2,
            { status := OpStatus.error, message := some msg })
      | IdentityOutcome.manual msg =>
          let s2 := { s with state := SessionState.failed, lastError := some msg }
          GatewayResult.ok (storeSet st s2,
            { status := OpStatus.captcha, message := some msg })

/-- Modelled from the spec: submitCode at the gateway, spec section 4.2. A
wrong code returns the session to awaiting2fa for an unlimited retry; the
code check is the identity-check delegate. -/
def gwTwofa (st : Store) (id code : String) (codeOk : String → Bool) :
    GatewayResult (Store × OpResponse) :=
  match storeGet st id with
  | none => GatewayResult.notFound
  | some s =>
    if s.state != SessionState.awaiting2fa then
      GatewayResult.ok (st, { status := OpStatus.error,
                              message := some "not awaiting a code" })
    else if codeOk code then
      let s2 := { s with state := SessionState.succeeded, twofaMethod := none }
      GatewayResult.ok (storeSet st s2,
        { status := OpStatus.success, username := s.username })
    else
      GatewayResult.ok (st,
        { status := OpStatus.waiting2fa, twofaMethod := s.twofaMethod,
          message := some "invalid code" })

/-- Does the external approval signal arrive within this many seconds? The
signal is modelled as its arrival time, none when it never arrives. -/
def approvalWithin (approvalAfter : Option Nat) (timeoutSeconds : Nat) : Bool :=
  match approvalAfter with
  | none => false
  | some a => a ≤ timeoutSeconds

/-- Modelled from the spec: waitApproval at the gateway, spec section 4.2.
It polls the external approval signal for up to timeoutSeconds; on timeout it
answers still-pending and leaves the session untouched. -/
def gwMobileWait (st : Store) (id : String) (timeoutSeconds : Nat)
    (approvalAfter : Option Nat) : GatewayResult (Store × OpResponse) :=
  match storeGet st id with
  | none => GatewayResult.notFound
  | some s =>
    if s.state != SessionState.awaitingMobileApproval then
      GatewayResult.ok (st, { status := OpStatus.error,
                              message := some "not awaiting mobile approval" })
    else if approvalWithin approvalAfter timeoutSeconds then
      let s2 := { s with state := SessionState.succeeded, verificationCode := none }
      GatewayResult.ok (storeSet st s2,
        { status := OpStatus.success, username := s.username })
    else
      GatewayResult.ok (st,
        { status := OpStatus.waitingMobile, verificationCode := s.verificationCode })

/-- Modelled from the spec: cancel at the gateway, spec section 4.2. Valid
from any non-terminal state, deleting the session; a terminal session rejects
the mutation; an absent id is the not-found signal. -/
def gwCancel (st : Store) (id : String) : GatewayResult (Store × OpResponse) :=
  match storeGet st id with
  | none => GatewayResult.notFound
  | some s =>
    if s.state.isTerminal then
      GatewayResult.ok (st, { status := OpStatus.error,
                              message := some "session already terminal" })
    else
      GatewayResult.ok (storeDelete st id, { status := OpStatus.cancelled })

/-! Helper lemmas about the store. -/

theorem storeGet_cons (t : Session) (st : Store) (id : String) :
    storeGet (t :: st) id = if t.id = id then some t else storeGet st id := by
  unfold storeGet
  rw [List.find?_cons]
  by_cases h : t.id = id
  · have hb : (t.id == id) = true := by simp [h]
    rw [hb, if_pos h]
  · have hb : (t.id == id) = false := by simp [h]
    rw [hb, if_neg h]

theorem storeGet_none_not_mem (st : Store) (id : String)
    (h : storeGet st id = none) : id ∉ storeIds st := by
  unfold storeGet at h
  rw [List.find?_eq_none] at h
  intro hmem
  unfold storeIds at hmem
  rcases List.mem_map.mp hmem with ⟨s, hs, hid⟩
  exact h s hs (by simp [hid])

theorem storeGet_storeDelete_self (st : Store) (id : String) :
    storeGet (storeDelete st id) id = none := by
  unfold storeGet storeDelete
  rw [List.find?_eq_none]
  intro s hs
  have := (List.mem_filter.mp hs).2
  simp at this
  simp [this]

theorem storeGet_storeSet (st : Store) (id : String) (s s2 : Session)
    (hs : storeGet st id = some s) (h2 : s2.id = s.id) :
    storeGet (storeSet st s2) id = some s2 := by
  induction st with
  | nil => simp [storeGet, List.find?] at hs
  | cons t rest ih =>
    rw [storeGet_cons] at hs
    by_cases ht : t.id = id
    · rw [if_pos ht] at hs
      have hts : t = s := by injection hs
      have hid : s.id = id := hts ▸ ht
      unfold storeSet
      simp only [List.map_cons]
      rw [if_pos (by simp [h2, hid, ht])]
      rw [storeGet_cons]
      simp [h2, hid]
    · rw [if_neg ht] at hs
      unfold storeSet
      simp only [List.map_cons]
      rw [if_neg (by simp [h2]; intro hx; exact absurd hx (by
        intro hx2
        apply ht
        have hsid : s.id = id := by
          have := List.find?_some hs
          simpa using this
        rw [hx2, hsid]))]
      rw [storeGet_cons, if_neg ht]
      exact ih hs

theorem storeGet_some_id (st : Store) (id : String) (s : Session)
    (hs : storeGet st id = some s) : s.id = id := by
  have := List.find?_some hs
  simpa using this

/-! Claim theorems. -/

/-- C10: checkNeedsLogin never throws; on any transport or parse failure of
the needs-login request it returns the fallback needs-login answer, and on an
ordinary response it returns that response. -/
theorem checkNeedsLogin_total_fallback (t : FetchOutcome) (e : String)
    (h : fetchJsonFull t = Except.error e) :
    checkNeedsLogin t = needsLoginFallback ∧
    needsLoginFallback.needs_login = some (JsValue.bool true) ∧
    needsLoginFallback.account = some "default" := by
  refine ⟨?_, rfl, rfl⟩
  unfold checkNeedsLogin
  rw [h]

/-- C10 witness: a concrete network failure yields the fallback. -/
theorem checkNeedsLogin_total_fallback_witness :
    checkNeedsLogin (FetchOutcome.networkError "connection refused") = needsLoginFallback :=
  (checkNeedsLogin_total_fallback (FetchOutcome.networkError "connection refused")
    "connection refused" rfl).1

/-- C9 counterexample: a non-ok response whose body does carry a status field
(the falsy empty string) is not returned to the caller - fetchJson throws on
it - so the claim that every non-ok response carrying a status field is
returned as an ordinary value is false as stated. -/
theorem fetchJson_status_field_counterexample :
    (({ status := some (JsValue.str ""), detail := none } : RespData).status).isSome = true ∧
    fetchJson { ok := false, statusCode := 401,
                body := { status := some (JsValue.str "") } } =
      Except.error "Request failed: 401" := by
  constructor
  · rfl
  · rfl

/-- C9 amended: fetchJson throws exactly when the response is not ok and its
body has no truthy status field; every non-ok response whose body carries a
truthy status field is returned as an ordinary value, and every ok response
is returned as its parsed body. -/
theorem fetchJson_throw_characterization (r : HttpResponse) :
    ((∃ e, fetchJson r = Except.error e) ↔ (r.ok = false ∧ jsTruthy r.body.status = false)) ∧
    (r.ok = true → fetchJson r = Except.ok r.body) ∧
    (jsTruthy r.body.status = true → fetchJson r = Except.ok r.body) := by
  unfold fetchJson
  rcases r with ⟨ok, code, body⟩
  cases ok <;> cases htr : jsTruthy body.status <;> simp [htr]

/-- C9 witness for the amended characterization: an ok response is returned
as its body, a non-ok response with truthy status is returned, and a non-ok
response without one throws. -/
theorem fetchJson_throw_characterization_witness :
    fetchJson { ok := true, statusCode := 200,
                body := { username := some "octocat" } } =
      Except.ok { username := some "octocat" } ∧
    fetchJson { ok := false, statusCode := 400,
                body := { status := some (JsValue.str "error") } } =
      Except.ok { status := some (JsValue.str "error") } ∧
    (∃ e, fetchJson { ok := false, statusCode := 404,
                      body := { detail := some "Session not found" } } =
      Except.error e) := by
  refine ⟨?_, ?_, ?_⟩
  · exact (fetchJson_throw_characterization _).2.1 rfl
  · exact (fetchJson_throw_characterization _).2.2 rfl
  · exact (fetchJson_throw_characterization _).1.mpr ⟨rfl, rfl⟩

/-- C5: showSuccess issues exactly one reload call to the active-session
bootstrap, and whatever that call returns - success or a thrown failure - the
outcome is the success display for the given username, the session id is
untouched, and a failure is only logged as a warning. -/
theorem showSuccess_one_reload (u : Option String) (r : Except String RespData)
    (sid : Option String) :
    (showSuccess u r sid).calls = [ApiCall.reload] ∧
    (showSuccess u r sid).calls.count ApiCall.reload = 1 ∧
    (showSuccess u r sid).outcome = UiOutcome.success u ∧
    (showSuccess u r sid).sessionId = sid := by
  cases r <;> simp [showSuccess, List.count_cons]

/-- A session record used by concrete witnesses, still in initialized. -/
def demoInit : Session :=
  { id := "s1", account := "default", state := SessionState.initialized }

/-- A session record used by concrete witnesses, awaiting mobile approval. -/
def demoMobile : Session :=
  { id := "s2", account := "default", state := SessionState.awaitingMobileApproval,
    username := some "octocat", verificationCode := some "42" }

/-- A session record used by concrete witnesses, awaiting a 2FA code. -/
def demoTwofa : Session :=
  { id := "s3", account := "default", state := SessionState.awaiting2fa,
    username := some "octocat", twofaMethod := some "totp" }

/-- C1: every operation against an id absent from the store answers the
distinct not-found signal, and for an id present in the store no operation
ever answers it, so not-found is exactly the one error surface shared by
every mutating and read operation. -/
theorem notFound_uniform (st : Store) (id username password code : String)
    (identity : String → String → IdentityOutcome) (codeOk : String → Bool)
    (t : Nat) (appr : Option Nat) :
    (storeGet st id = none →
      gwStatus st id = GatewayResult.notFound ∧
      gwCredentials st id username password identity = GatewayResult.notFound ∧
      gwTwofa st id code codeOk = GatewayResult.notFound ∧
      gwMobileWait st id t appr = GatewayResult.notFound ∧
      gwCancel st id = GatewayResult.notFound) ∧
    (∀ s, storeGet st id = some s →
      gwStatus st id ≠ GatewayResult.notFound ∧
      gwCredentials st id username password identity ≠ GatewayResult.notFound ∧
      gwTwofa st id code codeOk ≠ GatewayResult.notFound ∧
      gwMobileWait st id t appr ≠ GatewayResult.notFound ∧
      gwCancel st id ≠ GatewayResult.notFound) := by
  constructor
  · intro h
    refine ⟨?_, ?_, ?_, ?_, ?_⟩ <;>
      simp [gwStatus, gwCredentials, gwTwofa, gwMobileWait, gwCancel, h]
  · intro s hs
    refine ⟨?_, ?_, ?_, ?_, ?_⟩
    · simp [gwStatus, hs]
    · simp only [gwCredentials, hs]
      split
      · simp
      · cases identity username password <;> simp
    · simp only [gwTwofa, hs]
      split
      · simp
      · split <;> simp
    · simp only [gwMobileWait, hs]
      split
      · simp
      · split <;> simp
    · simp only [gwCancel, hs]
      split <;> simp

/-- C1 witness: at the empty store every operation on the id used by the e2e
tests answers not-found, and at a store holding a live session none does. -/
theorem notFound_uniform_witness :
    (gwStatus [] "invalid-session-id" = GatewayResult.notFound ∧
     gwCredentials [] "invalid-session-id" "test" "test"
       (fun _ _ => IdentityOutcome.invalid "invalid credentials") = GatewayResult.notFound ∧
     gwTwofa [] "invalid-session-id" "123456" (fun _ => false) = GatewayResult.notFound ∧
     gwMobileWait [] "invalid-session-id" 10 none = GatewayResult.notFound ∧
     gwCancel [] "invalid-session-id" = GatewayResult.notFound) ∧
    (gwStatus [demoInit] "s1" ≠ GatewayResult.notFound ∧
     gwCredentials [demoInit] "s1" "test" "test"
       (fun _ _ => IdentityOutcome.invalid "invalid credentials") ≠ GatewayResult.notFound ∧
     gwTwofa [demoInit] "s1" "123456" (fun _ => false) ≠ GatewayResult.notFound ∧
     gwMobileWait [demoInit] "s1" 10 none ≠ GatewayResult.notFound ∧
     gwCancel [demoInit] "s1" ≠ GatewayResult.notFound) :=
  ⟨(notFound_uniform [] "invalid-session-id" "test" "test" "123456"
      (fun _ _ => IdentityOutcome.invalid "invalid credentials") (fun _ => false)
      10 none).1 rfl,
   (notFound_uniform [demoInit] "s1" "test" "test" "123456"
      (fun _ _ => IdentityOutcome.invalid "invalid credentials") (fun _ => false)
      10 none).2 demoInit rfl⟩

/-- C8: start followed immediately by getStatus answers an initialized
session under the returned id; the returned session id is the nonempty fresh
id, and uniqueness of ids among live sessions is preserved. -/
theorem start_then_status (st : Store) (account newId : String)
    (hfresh : storeGet st newId = none) (hne : newId ≠ "")
    (hnd : (storeIds st).Nodup) :
    gwStatus (gwStart st account newId).1 newId =
      GatewayResult.ok { id := newId, account := account, state := SessionState.initialized } ∧
    (gwStart st account newId).2.status = OpStatus.initialized ∧
    (gwStart st account newId).2.sessionId = some newId ∧
    newId ≠ "" ∧
    (storeIds (gwStart st account newId).1).Nodup := by
  refine ⟨?_, rfl, rfl, hne, ?_⟩
  · unfold gwStart gwStatus
    rw [storeGet_cons]
    simp
  · unfold gwStart
    simp only [storeIds, List.map_cons]
    rw [List.nodup_cons]
    exact ⟨storeGet_none_not_mem st newId hfresh, hnd⟩

/-- C8 witness: starting on the empty store with a concrete fresh id. -/
theorem start_then_status_witness :
    gwStatus (gwStart [] "default" "s1").1 "s1" =
      GatewayResult.ok { id := "s1", account := "default",
                         state := SessionState.initialized } ∧
    (gwStart [] "default" "s1").2.status = OpStatus.initialized ∧
    (gwStart [] "default" "s1").2.sessionId = some "s1" ∧
    ("s1" : String) ≠ "" ∧
    (storeIds (gwStart [] "default" "s1").1).Nodup :=
  start_then_status [] "default" "s1" rfl (by decide) List.nodup_nil

/-- C2: waitApproval on a session awaiting mobile approval whose approval
signal has not arrived within the timeout answers the still-pending
waiting-mobile status, never the error status, and leaves the store - hence
the session, still awaiting mobile approval - unchanged for a later retry. -/
theorem waitApproval_timeout_pending (st : Store) (id : String) (t : Nat)
    (appr : Option Nat) (s : Session)
    (hs : storeGet st id = some s)
    (hstate : s.state = SessionState.awaitingMobileApproval)
    (hnot : approvalWithin appr t = false) :
    gwMobileWait st id t appr =
      GatewayResult.ok (st, { status := OpStatus.waitingMobile,
                              verificationCode := s.verificationCode }) ∧
    OpStatus.waitingMobile ≠ OpStatus.error ∧
    storeGet st id = some s ∧
    s.state = SessionState.awaitingMobileApproval := by
  refine ⟨?_, by simp, hs, hstate⟩
  simp [gwMobileWait, hs, hstate, hnot]

/-- C2 witness: a one-second wait against a session whose approval never
arrives answers waiting-mobile with the store unchanged. -/
theorem waitApproval_timeout_pending_witness :
    gwMobileWait [demoMobile] "s2" 1 none =
      GatewayResult.ok ([demoMobile],
        { status := OpStatus.waitingMobile, verificationCode := some "42" }) ∧
    storeGet [demoMobile] "s2" = some demoMobile :=
  ⟨((waitApproval_timeout_pending [demoMobile] "s2" 1 none demoMobile rfl rfl rfl).1),
   rfl⟩

/-- C3: from awaiting2fa a wrong code leaves the session in awaiting2fa in an
unchanged store - not failed, not terminal, so retries are unlimited - and a
subsequent correct code on the same session yields success. -/
theorem twofa_wrong_then_right (st : Store) (id wrong correct : String)
    (codeOk : String → Bool) (s : Session)
    (hs : storeGet st id = some s)
    (hstate : s.state = SessionState.awaiting2fa)
    (hw : codeOk wrong = false) (hc : codeOk correct = true) :
    gwTwofa st id wrong codeOk =
      GatewayResult.ok (st, { status := OpStatus.waiting2fa, twofaMethod := s.twofaMethod,
                              message := some "invalid code" }) ∧
    storeGet st id = some s ∧
    s.state = SessionState.awaiting2fa ∧
    gwTwofa st id correct codeOk =
      GatewayResult.ok
        (storeSet st { s with state := SessionState.succeeded, twofaMethod := none },
         { status := OpStatus.success, username := s.username }) ∧
    storeGet (storeSet st { s with state := SessionState.succeeded, twofaMethod := none }) id =
      some { s with state := SessionState.succeeded, twofaMethod := none } := by
  refine ⟨?_, hs, hstate, ?_, ?_⟩
  · simp [gwTwofa, hs, hstate, hw]
  · simp [gwTwofa, hs, hstate, hc]
  · exact storeGet_storeSet st id s _ hs rfl

/-- C3 witness: a wrong then a right code against a concrete session. -/
theorem twofa_wrong_then_right_witness :
    gwTwofa [demoTwofa] "s3" "000000" (fun c => c == "123456") =
      GatewayResult.ok ([demoTwofa],
        { status := OpStatus.waiting2fa, twofaMethod := some "totp",
          message := some "invalid code" }) ∧
    gwTwofa [demoTwofa] "s3" "123456" (fun c => c == "123456") =
      GatewayResult.ok
        (storeSet [demoTwofa]
          { demoTwofa with state := SessionState.succeeded, twofaMethod := none },
         { status := OpStatus.success, username := some "octocat" }) :=
  ⟨(twofa_wrong_then_right [demoTwofa] "s3" "000000" "123456"
      (fun c => c == "123456") demoTwofa rfl rfl rfl rfl).1,
   (twofa_wrong_then_right [demoTwofa] "s3" "000000" "123456"
      (fun c => c == "123456") demoTwofa rfl rfl rfl rfl).2.2.2.1⟩

/-- C7: cancel from any non-terminal state removes the session, answering
cancelled; a second cancel on the removed session answers not-found - a total
result, not a crash - and the client-side cancelLogin always completes with
its local id cleared whatever the server answered. -/
theorem cancel_valid_idempotent (st : Store) (id : String) (s : Session)
    (hs : storeGet st id = some s) (hnt : s.state.isTerminal = false) :
    gwCancel st id =
      GatewayResult.ok (storeDelete st id, { status := OpStatus.cancelled }) ∧
    gwCancel (storeDelete st id) id = GatewayResult.notFound ∧
    (∀ s0 r, (cancelLogin s0 r).sessionId = none) := by
  refine ⟨?_, ?_, ?_⟩
  · simp [gwCancel, hs, hnt]
  · simp [gwCancel, storeGet_storeDelete_self]
  · intro s0 r
    cases s0 <;> cases r <;> rfl

/-- C7 witness: cancelling a concrete live session, then cancelling again. -/
theorem cancel_valid_idempotent_witness :
    gwCancel [demoMobile] "s2" =
      GatewayResult.ok (storeDelete [demoMobile] "s2", { status := OpStatus.cancelled }) ∧
    gwCancel (storeDelete [demoMobile] "s2") "s2" = GatewayResult.notFound ∧
    (cancelLogin (some "s2") (Except.error "network down")).sessionId = none :=
  ⟨(cancel_valid_idempotent [demoMobile] "s2" demoMobile rfl rfl).1,
   (cancel_valid_idempotent [demoMobile] "s2" demoMobile rfl rfl).2.1,
   (cancel_valid_idempotent [demoMobile] "s2" demoMobile rfl rfl).2.2
     (some "s2") (Except.error "network down")⟩

/-- C4 counterexample: a 2FA submission answered by the terminal error status
completes with the local session id still set, not null - so the claim that
every terminal failure across credentials submit, 2FA submit and mobile wait
leaves the id null fails on the 2FA-submit path. -/
theorem twofa_error_keeps_id_counterexample :
    (handleTwofaSubmit (some "s1") "123456"
        (Except.ok { status := some (JsValue.str "error"),
                     error := some "wrong device" })
        (Except.ok ({} : RespData))).outcome = UiOutcome.errorShown "wrong device" ∧
    (handleTwofaSubmit (some "s1") "123456"
        (Except.ok { status := some (JsValue.str "error"),
                     error := some "wrong device" })
        (Except.ok ({} : RespData))).sessionId = some "s1" := by
  constructor <;> rfl

/-- C4 amended: after the credentials-submit and mobile-wait operations every
reported failure - terminal failure, captcha, unknown response, or a thrown
not-found - leaves the local session id null so the next credential attempt
starts fresh, and cancelLogin always clears the id; the 2FA-submit operation
instead completes every reported failure with its session id unchanged. -/
theorem failure_clears_id_amended (s0 : Option String)
    (account username password code sid : String)
    (a b c w rl tw : Except String RespData) (v : Option String)
    (hu : username ≠ "") (hp : password ≠ "") (hcode : code ≠ "") :
    (∀ m, (handleCredentialsSubmit s0 account username password a b c).outcome
        = UiOutcome.errorShown m →
      (handleCredentialsSubmit s0 account username password a b c).sessionId = none) ∧
    (∀ m, (handleMobileWait s0 v w rl).outcome = UiOutcome.errorShown m →
      (handleMobileWait s0 v w rl).sessionId = none) ∧
    (∀ r, (cancelLogin s0 r).sessionId = none) ∧
    (∀ m, (handleTwofaSubmit (some sid) code tw rl).outcome = UiOutcome.errorShown m →
      (handleTwofaSubmit (some sid) code tw rl).sessionId = some sid) := by
  refine ⟨?_, ?_, ?_, ?_⟩
  · intro m hm
    cases s0 with
    | none =>
      cases a with
      | error e2 => simp [handleCredentialsSubmit, hu, hp]
      | ok sr =>
        by_cases hse : statusIs sr "error" = true
        · simp [handleCredentialsSubmit, hu, hp, hse]
        · cases b with
          | error e => simp [handleCredentialsSubmit, hu, hp, hse]
          | ok r =>
            by_cases h1 : statusIs r "success" = true
            · exfalso
              cases c <;>
                simp [handleCredentialsSubmit, hu, hp, hse, h1, showSuccess] at hm
            · by_cases h2 : statusIs r "waiting_2fa" = true
              · exfalso
                simp [handleCredentialsSubmit, hu, hp, hse, h1, h2] at hm
              · by_cases h3 : statusIs r "waiting_mobile" = true
                · exfalso
                  simp [handleCredentialsSubmit, hu, hp, hse, h1, h2, h3] at hm
                · by_cases hC : statusIs r "captcha" = true
                  · simp [handleCredentialsSubmit, hu, hp, hse, h1, h2, h3, hC]
                  · by_cases hE : statusIs r "error" = true
                    · simp [handleCredentialsSubmit, hu, hp, hse, h1, h2, h3, hC, hE]
                    · simp [handleCredentialsSubmit, hu, hp, hse, h1, h2, h3, hC, hE]
    | some sid2 =>
      cases b with
      | error e => simp [handleCredentialsSubmit, hu, hp]
      | ok r =>
        by_cases h1 : statusIs r "success" = true
        · exfalso
          cases c <;> simp [handleCredentialsSubmit, hu, hp, h1, showSuccess] at hm
        · by_cases h2 : statusIs r "waiting_2fa" = true
          · exfalso
            simp [handleCredentialsSubmit, hu, hp, h1, h2] at hm
          · by_cases h3 : statusIs r "waiting_mobile" = true
            · exfalso
              simp [handleCredentialsSubmit, hu, hp, h1, h2, h3] at hm
            · by_cases hC : statusIs r "captcha" = true
              · simp [handleCredentialsSubmit, hu, hp, h1, h2, h3, hC]
              · by_cases hE : statusIs r "error" = true
                · simp [handleCredentialsSubmit, hu, hp, h1, h2, h3, hC, hE]
                · simp [handleCredentialsSubmit, hu, hp, h1, h2, h3, hC, hE]
  · intro m hm
    cases w with
    | error e => simp [handleMobileWait]
    | ok r =>
      by_cases h1 : statusIs r "success" = true
      · exfalso
        cases rl <;> simp [handleMobileWait, h1, showSuccess] at hm
      · by_cases h2 : statusIs r "error" = true
        · simp [handleMobileWait, h1, h2]
        · by_cases h3 : statusIs r "waiting_mobile" = true
          · simp [handleMobileWait, h1, h2, h3]
          · exfalso
            simp [handleMobileWait, h1, h2, h3] at hm
  · intro r
    cases s0 <;> cases r <;> rfl
  · intro m hm
    cases tw with
    | error e => simp [handleTwofaSubmit, hcode]
    | ok r =>
      by_cases h1 : statusIs r "success" = true
      · exfalso
        cases rl <;> simp [handleTwofaSubmit, hcode, h1, showSuccess] at hm
      · by_cases h2 : statusIs r "waiting_2fa" = true
        · simp [handleTwofaSubmit, hcode, h1, h2]
        · by_cases h3 : statusIs r "error" = true
          · simp [handleTwofaSubmit, hcode, h1, h2, h3]
          · exfalso
            simp [handleTwofaSubmit, hcode, h1, h2, h3] at hm

/-- C4 amended witness: a failed credentials submit, a timed-out mobile wait
and a cancel all end with a null id, while a failed 2FA submit keeps its. -/
theorem failure_clears_id_amended_witness :
    (handleCredentialsSubmit (some "s9") "default" "u" "p" (Except.ok ({} : RespData))
        (Except.ok { status := some (JsValue.str "error"),
                     error := some "invalid credentials" })
        (Except.ok ({} : RespData))).sessionId = none ∧
    (handleMobileWait (some "s9") (some "42")
        (Except.ok { status := some (JsValue.str "waiting_mobile") })
        (Except.ok ({} : RespData))).sessionId = none ∧
    (cancelLogin (some "s9") (Except.ok ({} : RespData))).sessionId = none ∧
    (handleTwofaSubmit (some "s7") "123456"
        (Except.ok { status := some (JsValue.str "error"), error := some "denied" })
        (Except.ok ({} : RespData))).sessionId = some "s7" :=
  have h := failure_clears_id_amended (some "s9") "default" "u" "p" "123456" "s7"
    (Except.ok ({} : RespData))
    (Except.ok { status := some (JsValue.str "error"),
                 error := some "invalid credentials" })
    (Except.ok ({} : RespData))
    (Except.ok { status := some (JsValue.str "waiting_mobile") })
    (Except.ok ({} : RespData))
    (Except.ok { status := some (JsValue.str "error"), error := some "denied" })
    (some "42") (by decide) (by decide) (by decide)
  ⟨h.1 "invalid credentials" rfl,
   h.2.1 "Mobile approval timed out. Please try again." rfl,
   h.2.2.1 (Except.ok ({} : RespData)),
   h.2.2.2 "denied" rfl⟩

/-- C6: with no session id held the handler issues the start call first, and
any credentials call that follows is made against exactly the session id the
start response returned; a failed start issues no credentials call; with an
id already held no start call is made and the credentials go to the held
id. -/
theorem start_before_credentials (account username password : String)
    (startR credsR reloadR : Except String RespData)
    (hu : username ≠ "") (hp : password ≠ "") :
    (∀ r, startR = Except.ok r → statusIs r "error" = false →
      ∃ rest,
        (handleCredentialsSubmit none account username password startR credsR reloadR).calls
          = ApiCall.start account :: ApiCall.credentials r.session_id username password
              :: rest) ∧
    (∀ e, startR = Except.error e →
      (handleCredentialsSubmit none account username password startR credsR reloadR).calls
        = [ApiCall.start account]) ∧
    (∀ r, startR = Except.ok r → statusIs r "error" = true →
      (handleCredentialsSubmit none account username password startR credsR reloadR).calls
        = [ApiCall.start account]) ∧
    (∀ sid,
      (∃ rest,
        (handleCredentialsSubmit (some sid) account username password startR credsR
            reloadR).calls
          = ApiCall.credentials (some sid) username password :: rest) ∧
      (∀ acc2, ApiCall.start acc2 ∉
        (handleCredentialsSubmit (some sid) account username password startR credsR
            reloadR).calls)) := by
  refine ⟨?_, ?_, ?_, ?_⟩
  · intro r hr hnerr
    subst hr
    cases credsR with
    | error e => exact ⟨[], by simp [handleCredentialsSubmit, hu, hp, hnerr]⟩
    | ok rc =>
      by_cases h1 : statusIs rc "success" = true
      · cases reloadR with
        | ok rr =>
          exact ⟨[ApiCall.reload],
            by simp [handleCredentialsSubmit, hu, hp, hnerr, h1, showSuccess]⟩
        | error er =>
          exact ⟨[ApiCall.reload],
            by simp [handleCredentialsSubmit, hu, hp, hnerr, h1, showSuccess]⟩
      · by_cases h2 : statusIs rc "waiting_2fa" = true
        · exact ⟨[], by simp [handleCredentialsSubmit, hu, hp, hnerr, h1, h2]⟩
        · by_cases h3 : statusIs rc "waiting_mobile" = true
          · exact ⟨[], by simp [handleCredentialsSubmit, hu, hp, hnerr, h1, h2, h3]⟩
          · by_cases hC : statusIs rc "captcha" = true
            · exact ⟨[], by simp [handleCredentialsSubmit, hu, hp, hnerr, h1, h2, h3, hC]⟩
            · by_cases hE : statusIs rc "error" = true
              · exact ⟨[],
                  by simp [handleCredentialsSubmit, hu, hp, hnerr, h1, h2, h3, hC, hE]⟩
              · exact ⟨[],
                  by simp [handleCredentialsSubmit, hu, hp, hnerr, h1, h2, h3, hC, hE]⟩
  · intro e he
    subst he
    simp [handleCredentialsSubmit, hu, hp]
  · intro r hr herr
    subst hr
    simp [handleCredentialsSubmit, hu, hp, herr]
  · intro sid
    constructor
    · cases credsR with
      | error e => exact ⟨[], by simp [handleCredentialsSubmit, hu, hp]⟩
      | ok rc =>
        by_cases h1 : statusIs rc "success" = true
        · cases reloadR with
          | ok rr =>
            exact ⟨[ApiCall.reload],
              by simp [handleCredentialsSubmit, hu, hp, h1, showSuccess]⟩
          | error er =>
            exact ⟨[ApiCall.reload],
              by simp [handleCredentialsSubmit, hu, hp, h1, showSuccess]⟩
        · by_cases h2 : statusIs rc "waiting_2fa" = true
          · exact ⟨[], by simp [handleCredentialsSubmit, hu, hp, h1, h2]⟩
          · by_cases h3 : statusIs rc "waiting_mobile" = true
            · exact ⟨[], by simp [handleCredentialsSubmit, hu, hp, h1, h2, h3]⟩
            · by_cases hC : statusIs rc "captcha" = true
              · exact ⟨[], by simp [handleCredentialsSubmit, hu, hp, h1, h2, h3, hC]⟩
              · by_cases hE : statusIs rc "error" = true
                · exact ⟨[], by simp [handleCredentialsSubmit, hu, hp, h1, h2, h3, hC, hE]⟩
                · exact ⟨[], by simp [handleCredentialsSubmit, hu, hp, h1, h2, h3, hC, hE]⟩
    · intro acc2
      cases credsR with
      | error e => simp [handleCredentialsSubmit, hu, hp]
      | ok rc =>
        by_cases h1 : statusIs rc "success" = true
        · cases reloadR <;> simp [handleCredentialsSubmit, hu, hp, h1, showSuccess]
        · by_cases h2 : statusIs rc "waiting_2fa" = true
          · simp [handleCredentialsSubmit, hu, hp, h1, h2]
          · by_cases h3 : statusIs rc "waiting_mobile" = true
            · simp [handleCredentialsSubmit, hu, hp, h1, h2, h3]
            · by_cases hC : statusIs rc "captcha" = true
              · simp [handleCredentialsSubmit, hu, hp, h1, h2, h3, hC]
              · by_cases hE : statusIs rc "error" = true
                · simp [handleCredentialsSubmit, hu, hp, h1, h2, h3, hC, hE]
                · simp [handleCredentialsSubmit, hu, hp, h1, h2, h3, hC, hE]

/-- C6 witness: a fresh submission starts and then submits against the
returned id, while a submission with a held id never starts. -/
theorem start_before_credentials_witness :
    (∃ rest,
      (handleCredentialsSubmit none "default" "u" "p"
          (Except.ok { status := some (JsValue.str "initialized"),
                       session_id := some "sA" })
          (Except.ok { status := some (JsValue.str "waiting_2fa"),
                       twofa_method := some "totp" })
          (Except.ok ({} : RespData))).calls
        = ApiCall.start "default" :: ApiCall.credentials (some "sA") "u" "p" :: rest) ∧
    (∃ rest,
      (handleCredentialsSubmit (some "sB") "default" "u" "p"
          (Except.ok { status := some (JsValue.str "initialized"),
                       session_id := some "sA" })
          (Except.ok { status := some (JsValue.str "waiting_2fa"),
                       twofa_method := some "totp" })
          (Except.ok ({} : RespData))).calls
        = ApiCall.credentials (some "sB") "u" "p" :: rest) ∧
    ApiCall.start "default" ∉
      (handleCredentialsSubmit (some "sB") "default" "u" "p"
          (Except.ok { status := some (JsValue.str "initialized"),
                       session_id := some "sA" })
          (Except.ok { status := some (JsValue.str "waiting_2fa"),
                       twofa_method := some "totp" })
          (Except.ok ({} : RespData))).calls :=
  have h := start_before_credentials "default" "u" "p"
    (Except.ok { status := some (JsValue.str "initialized"), session_id := some "sA" })
    (Except.ok { status := some (JsValue.str "waiting_2fa"), twofa_method := some "totp" })
    (Except.ok ({} : RespData)) (by decide) (by decide)
  ⟨h.1 { status := some (JsValue.str "initialized"), session_id := some "sA" } rfl rfl,
   (h.2.2.2 "sB").1,
   (h.2.2.2 "sB").2 "default"⟩

end Ghinbox
